import Mathlib

/-!
Shallow embedding of `modules/hw/mmal/scale.c` (DispmanX hardware scaling
filter) and verification of its specified properties.

The embedding models:
- the format-negotiation entry point `OpenFilter`;
- the per-frame entry point `Filter` as a pure state-passing function that
  returns the produced picture (if any), the updated filter state, the
  updated function-static palette buffer, and the trace of accelerator /
  picture-management calls it performed, in order;
- the palette conversion macro `DPM_RGBA32` together with the BT.601-style
  conversion loop, with C `double` arithmetic modelled as exact rational
  arithmetic and the narrowing `(uint8_t)` cast of a floating value modelled
  as truncation toward zero followed by wrap-around modulo 256.
-/

namespace MmalScale

/-- The VLC fourcc chromas that `scale.c` inspects, plus a catch-all for every
other chroma (`other` carries the fourcc code). -/
inductive Chroma where
  | YUVP
  | YUVA
  | RGB32
  | RGBA
  | other (code : Nat)
  deriving DecidableEq

/-- The DispmanX image types used by the filter (`VC_IMAGE_*`). -/
inductive ImageType where
  | RGBA32
  | I8BPP
  | YUV420
  deriving DecidableEq

/-- Role tag identifying which of the two per-call resources a create/delete
call refers to (the C code distinguishes them by the opaque handle that flows
from `vc_dispmanx_resource_create` to `vc_dispmanx_resource_delete`). -/
inductive Res where
  | dst
  | src
  deriving DecidableEq

/-- `video_palette_t`: the per-frame palette; each entry is four bytes
(Y, U, V, A), stored as naturals (reads of the `uint8_t` components take the
value modulo 256). -/
structure VideoPalette where
  entries : List (Nat × Nat × Nat × Nat)
  deriving DecidableEq

/-- The part of `video_format_t` read or written by `scale.c`. -/
structure VideoFormat where
  i_chroma : Chroma
  i_width : Nat
  i_height : Nat
  orientation : Nat
  p_palette : VideoPalette
  deriving DecidableEq

/-- The part of `picture_t` the filter reads: the first plane's pitch and an
abstract stand-in for the metadata copied by `picture_CopyProperties`. -/
structure Picture where
  pitch : Nat
  props : Nat
  deriving DecidableEq

/-- The part of `filter_t` read or written by `scale.c`: the negotiated
formats, whether the `Filter` callback has been installed, and an abstract
stand-in for every remaining field (which the module never touches). -/
structure FilterT where
  fmt_in : VideoFormat
  fmt_out : VideoFormat
  pf_video_filter : Bool
  rest : Nat
  deriving DecidableEq

/-- One call made by `Filter` against the accelerator or the picture layer,
in program order. -/
inductive Event where
  | resourceCreate (r : Res) (imgType : ImageType) (w h : Nat)
  | displayOpen (r : Res)
  | updateStart
  | writeData (imgType : ImageType) (pitch : Nat)
  | setPalette (data : List Nat)
  | elementAdd
  | submitSync
  | readData (pitch : Nat)
  | elementRemove
  | displayClose
  | resourceDelete (r : Res)
  | releaseInput
  deriving DecidableEq

/-- The outcome of one `Filter` call: the returned picture (null or not), the
filter state after the call, the function-static palette buffer after the
call, and the ordered trace of calls performed. -/
structure FilterResult where
  result : Option Picture
  state : FilterT
  buf : List Nat
  trace : List Event
  deriving DecidableEq

/-- Truncation of a rational toward zero, as C truncates a `double` when
converting it to an integer type. -/
def truncQ (q : Rat) : Int :=
  if 0 ≤ q then ⌊q⌋ else -⌊-q⌋

/-- The narrowing `(uint8_t)` cast applied to a C `double` value: truncate
toward zero, then wrap modulo 256. -/
def u8ofRat (q : Rat) : Nat :=
  (truncQ q % 256).toNat

/-- The packing skeleton of the `DPM_RGBA32` macro: its four arguments, each
already narrowed to a byte by the macro's `(uint8_t)` casts, are shifted and
or-ed into one 32-bit word. -/
def DPM_RGBA32 (a r g b : Nat) : Nat :=
  a <<< 24 ||| r <<< 16 ||| g <<< 8 ||| b

/-- One iteration of the palette-conversion loop body: the entry's bytes are
read (`uint8_t` reads, hence modulo 256), the three BT.601-style channel
values are computed in `double` arithmetic (modelled exactly over `Rat`), and
`DPM_RGBA32` packs the cast channels. -/
def dpmEntry (e : Nat × Nat × Nat × Nat) : Nat :=
  let y : Int := (e.1 % 256 : Nat)
  let u : Int := (e.2.1 % 256 : Nat)
  let v : Int := (e.2.2.1 % 256 : Nat)
  let a : Nat := e.2.2.2 % 256
  DPM_RGBA32 a
    (u8ofRat (1.164 * ((y : Rat) - 16) + 2.018 * ((u : Rat) - 128)))
    (u8ofRat (1.164 * ((y : Rat) - 16) - 0.813 * ((v : Rat) - 128)
      - 0.391 * ((u : Rat) - 128)))
    (u8ofRat (1.163 * ((y : Rat) - 16) + 1.596 * ((v : Rat) - 128)))

/-- The palette-conversion loop: for `i` from `k` upward, overwrite slot `i`
of the function-static `palette` buffer with the converted entry. Slots past
the current palette's entry count keep their previous contents. -/
def fillPalette (buf : List Nat) (es : List (Nat × Nat × Nat × Nat))
    (k : Nat) : List Nat :=
  match es with
  | [] => buf
  | e :: rest => fillPalette (buf.set k (dpmEntry e)) rest (k + 1)

/-- Modelled from the spec: `video_format_ScaleCropAr` (VLC core code, not
part of this excerpt) recomputes the output geometry by an
aspect-ratio-preserving crop: the output box is shrunk on one axis so that
its aspect ratio matches the input's, cropping excess rather than
letterboxing, and the adjusted geometry is written back into the given
(stored) output format. Only the width/height fields change. -/
def video_format_ScaleCropAr (dst src : VideoFormat) : VideoFormat :=
  if dst.i_width * src.i_height ≥ dst.i_height * src.i_width then
    { dst with i_width := dst.i_height * src.i_width / src.i_height }
  else
    { dst with i_height := dst.i_width * src.i_height / src.i_width }

/-- `OpenFilter`: accepts the negotiated formats or rejects with
`VLC_EGENERIC`; on success it installs the `Filter` callback
(`pf_video_filter`). `bcm_host_init` has no observable effect in this model. -/
def OpenFilter (f : FilterT) : Option FilterT :=
  if (f.fmt_in.i_chroma ≠ Chroma.YUVP ∧ f.fmt_in.i_chroma ≠ Chroma.YUVA ∧
      f.fmt_in.i_chroma ≠ Chroma.RGB32 ∧ f.fmt_in.i_chroma ≠ Chroma.RGBA) ∨
     f.fmt_out.i_chroma ≠ Chroma.RGBA then
    none
  else if f.fmt_in.orientation ≠ f.fmt_out.orientation then
    none
  else
    some { f with pf_video_filter := true }

/-- The DispmanX image type the filter selects for the negotiated input
chroma. -/
def imgTypeOf (c : Chroma) : ImageType :=
  if c = Chroma.YUVP then ImageType.I8BPP
  else if c = Chroma.YUVA then ImageType.YUV420
  else ImageType.RGBA32

/-- The body of `Filter` past all early-return guards and past the output
picture allocation: resource creation, upload, optional palette push,
composition, read-back, teardown, metadata copy and input release, emitting
the calls in program order. `f` is the filter state after
`video_format_ScaleCropAr` has run. -/
def scaleRun (f : FilterT) (buf : List Nat) (pic pic_dst : Picture) :
    FilterResult :=
  let fmt_in := f.fmt_in
  let fmt_out := f.fmt_out
  let img_type := imgTypeOf fmt_in.i_chroma
  let src_pitch := pic.pitch
  let dst_pitch := pic_dst.pitch
  let src_height := fmt_in.i_height
  let src_width := fmt_in.i_width
  let dst_height := fmt_out.i_height
  let dst_width := fmt_out.i_width
  let buf' :=
    if fmt_in.i_chroma = Chroma.YUVP then
      fillPalette buf fmt_in.p_palette.entries 0
    else buf
  let palEvents : List Event :=
    if fmt_in.i_chroma = Chroma.YUVP then [Event.setPalette buf'] else []
  let trace : List Event :=
    [Event.resourceCreate Res.dst ImageType.RGBA32 dst_width dst_height,
     Event.displayOpen Res.dst,
     Event.updateStart,
     Event.resourceCreate Res.src img_type
       (src_width ||| (src_pitch <<< 16)) (src_height ||| (src_height <<< 16)),
     Event.writeData img_type src_pitch]
    ++ palEvents
    ++ [Event.elementAdd,
        Event.submitSync,
        Event.readData dst_pitch,
        Event.elementRemove,
        Event.displayClose,
        Event.resourceDelete Res.src,
        Event.resourceDelete Res.dst,
        Event.releaseInput]
  { result := some { pic_dst with props := pic.props },
    state := f, buf := buf', trace := trace }

/-- `Filter`: the per-frame callback. Null input and degenerate negotiated
geometry return null immediately; then the stored output format is adjusted
in place by `video_format_ScaleCropAr`; then the output picture is requested
from the allocator (its reply is the `alloc` argument) — on failure the input
picture is released and null returned; otherwise the full hardware scale runs. -/
def Filter (f : FilterT) (buf : List Nat) (pic : Option Picture)
    (alloc : Option Picture) : FilterResult :=
  match pic with
  | none => { result := none, state := f, buf := buf, trace := [] }
  | some pic =>
    if f.fmt_in.i_height = 0 ∨ f.fmt_in.i_width = 0 then
      { result := none, state := f, buf := buf, trace := [] }
    else if f.fmt_out.i_height = 0 ∨ f.fmt_out.i_width = 0 then
      { result := none, state := f, buf := buf, trace := [] }
    else
      let f' := { f with
        fmt_out := video_format_ScaleCropAr f.fmt_out f.fmt_in }
      match alloc with
      | none =>
        { result := none, state := f', buf := buf,
          trace := [Event.releaseInput] }
      | some pic_dst => scaleRun f' buf pic pic_dst

/-- Recognizer: accelerator resource-create call. -/
def Event.isCreate : Event → Bool
  | Event.resourceCreate _ _ _ _ => true
  | _ => false

/-- Recognizer: accelerator resource-delete call. -/
def Event.isDelete : Event → Bool
  | Event.resourceDelete _ => true
  | _ => false

/-- Recognizer: offscreen display open. -/
def Event.isDisplayOpen : Event → Bool
  | Event.displayOpen _ => true
  | _ => false

/-- Recognizer: display close. -/
def Event.isDisplayClose : Event → Bool
  | Event.displayClose => true
  | _ => false

/-- Recognizer: update (composition session) start. -/
def Event.isUpdateStart : Event → Bool
  | Event.updateStart => true
  | _ => false

/-- Recognizer: pixel upload into the source resource. -/
def Event.isWriteData : Event → Bool
  | Event.writeData _ _ => true
  | _ => false

/-- Recognizer: palette push into the source resource. -/
def Event.isSetPalette : Event → Bool
  | Event.setPalette _ => true
  | _ => false

/-- Recognizer: element placement into the session. -/
def Event.isElementAdd : Event → Bool
  | Event.elementAdd => true
  | _ => false

/-- Recognizer: synchronous session submission. -/
def Event.isSubmitSync : Event → Bool
  | Event.submitSync => true
  | _ => false

/-- Recognizer: read-back of the destination resource. -/
def Event.isReadData : Event → Bool
  | Event.readData _ => true
  | _ => false

/-- Recognizer: element removal (teardown). -/
def Event.isElementRemove : Event → Bool
  | Event.elementRemove => true
  | _ => false

/-- Recognizer: resource delete of the given role. -/
def Event.isDeleteOf (r : Res) : Event → Bool
  | Event.resourceDelete r' => r' = r
  | _ => false

/-- Recognizer: any call that reaches the accelerator (everything except the
picture-layer release of the input frame). -/
def Event.isAccel : Event → Bool
  | Event.releaseInput => false
  | _ => true

/-- Position of the first event satisfying `p` in a trace. -/
def posOf (tr : List Event) (p : Event → Bool) : Nat :=
  tr.findIdx p

/-- A concrete input picture (640-byte pitch) used to instantiate theorems. -/
def exPic : Picture := { pitch := 640, props := 7 }

/-- A concrete allocator reply used to instantiate theorems. -/
def exPicDst : Picture := { pitch := 7680, props := 0 }

/-- A concrete 640×480 RGBA input format. -/
def exFmtIn : VideoFormat :=
  { i_chroma := Chroma.RGBA, i_width := 640, i_height := 480,
    orientation := 0, p_palette := { entries := [] } }

/-- A concrete 1920×1080 RGBA output format. -/
def exFmtOut : VideoFormat :=
  { i_chroma := Chroma.RGBA, i_width := 1920, i_height := 1080,
    orientation := 0, p_palette := { entries := [] } }

/-- A concrete filter state with accepted formats and sane geometry. -/
def exFilter : FilterT :=
  { fmt_in := exFmtIn, fmt_out := exFmtOut, pf_video_filter := true,
    rest := 3 }

/-- The same filter state with a degenerate (zero-width) input geometry. -/
def exFilter0 : FilterT :=
  { exFilter with fmt_in := { exFmtIn with i_width := 0 } }

/-- A filter state negotiated for paletted (YUVP) input with a one-entry
palette. -/
def exFilterP : FilterT :=
  { exFilter with
    fmt_in :=
      { exFmtIn with
        i_chroma := Chroma.YUVP
        p_palette := { entries := [(235, 128, 128, 255)] } } }

/-- A prior palette-buffer history: all zeros. -/
def exBufA : List Nat := List.replicate 256 0

/-- Another prior history, differing from `exBufA` only in slot 9. -/
def exBufB : List Nat := (List.replicate 256 0).set 9 1

end MmalScale

/-- C1: `OpenFilter` accepts — returns `VLC_SUCCESS` and installs the filter
callback — if and only if the input chroma is YUVP, YUVA, RGB32 or RGBA, the
output chroma is RGBA, and the two orientations are equal. -/
theorem OpenFilter_accepts_iff (f : MmalScale.FilterT) :
    (∃ f', MmalScale.OpenFilter f = some f' ∧ f'.pf_video_filter = true) ↔
    ((f.fmt_in.i_chroma = MmalScale.Chroma.YUVP ∨
      f.fmt_in.i_chroma = MmalScale.Chroma.YUVA ∨
      f.fmt_in.i_chroma = MmalScale.Chroma.RGB32 ∨
      f.fmt_in.i_chroma = MmalScale.Chroma.RGBA) ∧
     f.fmt_out.i_chroma = MmalScale.Chroma.RGBA ∧
     f.fmt_in.orientation = f.fmt_out.orientation) := by
  unfold MmalScale.OpenFilter
  split_ifs with h1 h2
  · constructor
    · rintro ⟨f', hf, -⟩; cases hf
    · rintro ⟨hin, hout, hor⟩; tauto
  · constructor
    · rintro ⟨f', hf, -⟩; cases hf
    · rintro ⟨hin, hout, hor⟩; tauto
  · constructor
    · rintro -
      push_neg at h1 h2
      tauto
    · rintro -
      exact ⟨_, rfl, rfl⟩

namespace MmalScale

/-- Or-ing a left-shifted value onto a value that fits below the shift is
plain addition. -/
theorem lor_shiftLeft_add (a b k : Nat) (hb : b < 2 ^ k) :
    a <<< k ||| b = a * 2 ^ k + b := by
  apply Nat.eq_of_testBit_eq
  intro i
  rw [Nat.testBit_lor, Nat.testBit_shiftLeft]
  have h2 : a * 2 ^ k + b = 2 ^ k * a + b := by ring
  rw [h2, Nat.testBit_mul_pow_two_add a hb i]
  by_cases h : i < k
  · have hne : ¬ i ≥ k := by omega
    simp [h, hne]
  · have hge : i ≥ k := by omega
    have hbi : b.testBit i = false :=
      Nat.testBit_lt_two_pow
        (lt_of_lt_of_le hb (Nat.pow_le_pow_right (by norm_num) hge))
    simp [h, hge, hbi]

/-- The cast of a `double` channel to a byte is below 256. -/
theorem u8ofRat_lt (q : Rat) : u8ofRat q < 256 := by
  unfold u8ofRat
  have h : truncQ q % 256 < 256 := Int.emod_lt_of_pos _ (by norm_num)
  have h0 : 0 ≤ truncQ q % 256 := Int.emod_nonneg _ (by norm_num)
  omega

/-- `DPM_RGBA32` on bytes is positional packing, most-significant byte
first. -/
theorem DPM_RGBA32_eq_add (a r g b : Nat)
    (hr : r < 256) (hg : g < 256) (hb : b < 256) :
    DPM_RGBA32 a r g b = a * 2 ^ 24 + r * 2 ^ 16 + g * 2 ^ 8 + b := by
  unfold DPM_RGBA32
  rw [Nat.lor_assoc, Nat.lor_assoc,
    lor_shiftLeft_add g b 8 (by omega),
    lor_shiftLeft_add r _ 16 (by omega),
    lor_shiftLeft_add a _ 24 (by omega)]
  ring

end MmalScale

/-- C2: the palette conversion maps each (Y, U, V, A) entry to the 32-bit
word packed A:R:G:B from most-significant byte to least, with
R = 1.164(Y−16) + 2.018(U−128),
G = 1.164(Y−16) − 0.813(V−128) − 0.391(U−128),
B = 1.163(Y−16) + 1.596(V−128), A passed through unchanged, and each channel
narrowed to 8 bits by truncation and wrap-around modulo 256 (no clamping). -/
theorem dpmEntry_packs_bt601 (y u v a : Nat)
    (hy : y < 256) (hu : u < 256) (hv : v < 256) (ha : a < 256) :
    MmalScale.dpmEntry (y, u, v, a) =
      a * 2 ^ 24
      + (MmalScale.truncQ (1.164 * ((y : Rat) - 16)
          + 2.018 * ((u : Rat) - 128)) % 256).toNat * 2 ^ 16
      + (MmalScale.truncQ (1.164 * ((y : Rat) - 16)
          - 0.813 * ((v : Rat) - 128)
          - 0.391 * ((u : Rat) - 128)) % 256).toNat * 2 ^ 8
      + (MmalScale.truncQ (1.163 * ((y : Rat) - 16)
          + 1.596 * ((v : Rat) - 128)) % 256).toNat := by
  unfold MmalScale.dpmEntry
  simp only [Nat.mod_eq_of_lt hy, Nat.mod_eq_of_lt hu, Nat.mod_eq_of_lt hv,
    Nat.mod_eq_of_lt ha]
  rw [MmalScale.DPM_RGBA32_eq_add _ _ _ _ (MmalScale.u8ofRat_lt _)
    (MmalScale.u8ofRat_lt _) (MmalScale.u8ofRat_lt _)]
  unfold MmalScale.u8ofRat
  push_cast
  ring_nf

/-- Witness for C2 at the white point (Y=235, U=V=128, A=255): the packed
word is 0xFFFEFEFE. -/
theorem dpmEntry_packs_bt601_witness :
    MmalScale.dpmEntry (235, 128, 128, 255) = 4294901502 := by
  have e1 : MmalScale.truncQ (1.164 * (((235 : Nat) : Rat) - 16)
      + 2.018 * (((128 : Nat) : Rat) - 128)) = 254 := by
    unfold MmalScale.truncQ
    rw [if_pos (by push_cast; norm_num), Int.floor_eq_iff]
    push_cast
    norm_num
  have e2 : MmalScale.truncQ (1.164 * (((235 : Nat) : Rat) - 16)
      - 0.813 * (((128 : Nat) : Rat) - 128)
      - 0.391 * (((128 : Nat) : Rat) - 128)) = 254 := by
    unfold MmalScale.truncQ
    rw [if_pos (by push_cast; norm_num), Int.floor_eq_iff]
    push_cast
    norm_num
  have e3 : MmalScale.truncQ (1.163 * (((235 : Nat) : Rat) - 16)
      + 1.596 * (((128 : Nat) : Rat) - 128)) = 254 := by
    unfold MmalScale.truncQ
    rw [if_pos (by push_cast; norm_num), Int.floor_eq_iff]
    push_cast
    norm_num
  rw [dpmEntry_packs_bt601 235 128 128 255 (by decide) (by decide) (by decide)
    (by decide), e1, e2, e3]
  decide

namespace MmalScale

/-- When the guards pass, `Filter` on a non-null picture and a successful
allocation is exactly the hardware run on the crop-adjusted state. -/
theorem Filter_success_eq {f : FilterT} {buf : List Nat} {p d : Picture}
    (h1 : ¬(f.fmt_in.i_height = 0 ∨ f.fmt_in.i_width = 0))
    (h2 : ¬(f.fmt_out.i_height = 0 ∨ f.fmt_out.i_width = 0)) :
    Filter f buf (some p) (some d) =
      scaleRun { f with fmt_out := video_format_ScaleCropAr f.fmt_out f.fmt_in }
        buf p d := by
  simp only [Filter]
  rw [if_neg h1, if_neg h2]

/-- If a `Filter` call returns a picture, every guard passed and the call is
the full hardware run on the crop-adjusted state. -/
theorem Filter_isSome_elim {f : FilterT} {buf : List Nat}
    {pic alloc : Option Picture}
    (h : (Filter f buf pic alloc).result.isSome) :
    ∃ p d, pic = some p ∧ alloc = some d ∧
      f.fmt_in.i_height ≠ 0 ∧ f.fmt_in.i_width ≠ 0 ∧
      f.fmt_out.i_height ≠ 0 ∧ f.fmt_out.i_width ≠ 0 ∧
      Filter f buf pic alloc =
        scaleRun
          { f with fmt_out := video_format_ScaleCropAr f.fmt_out f.fmt_in }
          buf p d := by
  match pic with
  | none => simp [Filter] at h
  | some p =>
    simp only [Filter] at h
    split_ifs at h with h1 h2
    · simp at h
    · simp at h
    · match alloc with
      | none => simp at h
      | some d =>
        push_neg at h1 h2
        exact ⟨p, d, rfl, rfl, h1.1, h1.2, h2.1, h2.2,
          Filter_success_eq (by push_neg; exact h1) (by push_neg; exact h2)⟩

/-- Trace of the hardware run when the input is paletted. -/
theorem scaleRun_trace_yuvp {f : FilterT} {buf : List Nat}
    {pic pic_dst : Picture} (h : f.fmt_in.i_chroma = Chroma.YUVP) :
    (scaleRun f buf pic pic_dst).trace =
      [Event.resourceCreate Res.dst ImageType.RGBA32
         f.fmt_out.i_width f.fmt_out.i_height,
       Event.displayOpen Res.dst,
       Event.updateStart,
       Event.resourceCreate Res.src ImageType.I8BPP
         (f.fmt_in.i_width ||| (pic.pitch <<< 16))
         (f.fmt_in.i_height ||| (f.fmt_in.i_height <<< 16)),
       Event.writeData ImageType.I8BPP pic.pitch,
       Event.setPalette (fillPalette buf f.fmt_in.p_palette.entries 0),
       Event.elementAdd,
       Event.submitSync,
       Event.readData pic_dst.pitch,
       Event.elementRemove,
       Event.displayClose,
       Event.resourceDelete Res.src,
       Event.resourceDelete Res.dst,
       Event.releaseInput] := by
  simp [scaleRun, imgTypeOf, h]

/-- Trace of the hardware run when the input is not paletted. -/
theorem scaleRun_trace_not_yuvp {f : FilterT} {buf : List Nat}
    {pic pic_dst : Picture} (h : f.fmt_in.i_chroma ≠ Chroma.YUVP) :
    (scaleRun f buf pic pic_dst).trace =
      [Event.resourceCreate Res.dst ImageType.RGBA32
         f.fmt_out.i_width f.fmt_out.i_height,
       Event.displayOpen Res.dst,
       Event.updateStart,
       Event.resourceCreate Res.src (imgTypeOf f.fmt_in.i_chroma)
         (f.fmt_in.i_width ||| (pic.pitch <<< 16))
         (f.fmt_in.i_height ||| (f.fmt_in.i_height <<< 16)),
       Event.writeData (imgTypeOf f.fmt_in.i_chroma) pic.pitch,
       Event.elementAdd,
       Event.submitSync,
       Event.readData pic_dst.pitch,
       Event.elementRemove,
       Event.displayClose,
       Event.resourceDelete Res.src,
       Event.resourceDelete Res.dst,
       Event.releaseInput] := by
  simp [scaleRun, h]

end MmalScale

/-- C5: whenever the input frame is null or a negotiated width/height is
zero, `Filter` returns null and its trace contains no accelerator call. -/
theorem Filter_geometry_guard (f : MmalScale.FilterT) (buf : List Nat)
    (pic alloc : Option MmalScale.Picture)
    (h : pic = none ∨ f.fmt_in.i_width = 0 ∨ f.fmt_in.i_height = 0 ∨
         f.fmt_out.i_width = 0 ∨ f.fmt_out.i_height = 0) :
    (MmalScale.Filter f buf pic alloc).result = none ∧
    ∀ e ∈ (MmalScale.Filter f buf pic alloc).trace,
      e.isAccel = false := by
  match pic with
  | none => simp [MmalScale.Filter]
  | some p =>
    simp only [MmalScale.Filter]
    split_ifs with h1 h2
    · simp
    · simp
    · exfalso
      push_neg at h1 h2
      rcases h with h | h | h | h | h
      · cases h
      · exact h1.2 h
      · exact h1.1 h
      · exact h2.2 h
      · exact h2.1 h

/-- Witness for C5: a zero-width input geometry yields a null return and an
accelerator-free trace. -/
theorem Filter_geometry_guard_witness :
    (MmalScale.Filter MmalScale.exFilter0 [] (some MmalScale.exPic)
      (some MmalScale.exPicDst)).result = none ∧
    ∀ e ∈ (MmalScale.Filter MmalScale.exFilter0 [] (some MmalScale.exPic)
      (some MmalScale.exPicDst)).trace, e.isAccel = false :=
  Filter_geometry_guard MmalScale.exFilter0 [] (some MmalScale.exPic)
    (some MmalScale.exPicDst) (Or.inr (Or.inl (by decide)))

/-- C6: when output-frame allocation fails, `Filter` releases the input
frame and returns null, and no accelerator call (in particular no resource
create) was made; the filter state is returned intact for further calls. -/
theorem Filter_alloc_failure (f : MmalScale.FilterT) (buf : List Nat)
    (p : MmalScale.Picture)
    (h1 : ¬(f.fmt_in.i_height = 0 ∨ f.fmt_in.i_width = 0))
    (h2 : ¬(f.fmt_out.i_height = 0 ∨ f.fmt_out.i_width = 0)) :
    (MmalScale.Filter f buf (some p) none).result = none ∧
    MmalScale.Event.releaseInput ∈
      (MmalScale.Filter f buf (some p) none).trace ∧
    ∀ e ∈ (MmalScale.Filter f buf (some p) none).trace,
      e.isAccel = false := by
  simp only [MmalScale.Filter]
  rw [if_neg h1, if_neg h2]
  refine ⟨rfl, by simp, ?_⟩
  intro e he
  simp only [List.mem_singleton] at he
  subst he
  rfl

/-- Witness for C6 at a concrete filter state and input picture. -/
theorem Filter_alloc_failure_witness :
    (MmalScale.Filter MmalScale.exFilter [] (some MmalScale.exPic)
      none).result = none ∧
    MmalScale.Event.releaseInput ∈
      (MmalScale.Filter MmalScale.exFilter [] (some MmalScale.exPic)
        none).trace ∧
    ∀ e ∈ (MmalScale.Filter MmalScale.exFilter [] (some MmalScale.exPic)
      none).trace, e.isAccel = false :=
  Filter_alloc_failure MmalScale.exFilter [] MmalScale.exPic
    (by decide) (by decide)

/-- C4 counterexample: with a non-null input frame but zero negotiated input
width, `Filter` returns null WITHOUT releasing the input frame — the claimed
release does not happen (the recovery differs from the allocation-failure
path, which does release). -/
theorem Filter_degenerate_cex :
    (MmalScale.Filter MmalScale.exFilter0 [] (some MmalScale.exPic)
      (some MmalScale.exPicDst)).result = none ∧
    MmalScale.Event.releaseInput ∉
      (MmalScale.Filter MmalScale.exFilter0 [] (some MmalScale.exPic)
        (some MmalScale.exPicDst)).trace := by
  decide

/-- C4 amended: on degenerate negotiated geometry with a non-null input
frame, `Filter` returns null immediately with no side effects at all — the
input frame is NOT released (unlike the allocation-failure recovery), no
event is emitted, and neither the filter state nor the palette buffer
changes. -/
theorem Filter_degenerate_amended (f : MmalScale.FilterT) (buf : List Nat)
    (p : MmalScale.Picture) (alloc : Option MmalScale.Picture)
    (h : f.fmt_in.i_width = 0 ∨ f.fmt_in.i_height = 0 ∨
         f.fmt_out.i_width = 0 ∨ f.fmt_out.i_height = 0) :
    MmalScale.Filter f buf (some p) alloc =
      { result := none, state := f, buf := buf, trace := [] } := by
  simp only [MmalScale.Filter]
  split_ifs with h1 h2
  · rfl
  · rfl
  · exfalso
    push_neg at h1 h2
    rcases h with h | h | h | h
    · exact h1.2 h
    · exact h1.1 h
    · exact h2.2 h
    · exact h2.1 h

/-- Witness for the amended C4 at a concrete zero-width state. -/
theorem Filter_degenerate_amended_witness :
    MmalScale.Filter MmalScale.exFilter0 [] (some MmalScale.exPic)
      (some MmalScale.exPicDst) =
      { result := none, state := MmalScale.exFilter0, buf := [],
        trace := [] } :=
  Filter_degenerate_amended MmalScale.exFilter0 [] MmalScale.exPic
    (some MmalScale.exPicDst) (Or.inl (by decide))

/-- C10 (with `video_format_ScaleCropAr` modelled from the spec): a call
that returns a picture stores the crop-adjusted geometry into the filter's
negotiated output format — the state every subsequent call observes — and
leaves every other filter field unchanged. -/
theorem Filter_crop_mutates_state (f : MmalScale.FilterT) (buf : List Nat)
    (pic alloc : Option MmalScale.Picture)
    (h : (MmalScale.Filter f buf pic alloc).result.isSome) :
    (MmalScale.Filter f buf pic alloc).state =
      { f with fmt_out :=
          MmalScale.video_format_ScaleCropAr f.fmt_out f.fmt_in } ∧
    (MmalScale.Filter f buf pic alloc).state.fmt_in = f.fmt_in ∧
    (MmalScale.Filter f buf pic alloc).state.pf_video_filter =
      f.pf_video_filter ∧
    (MmalScale.Filter f buf pic alloc).state.rest = f.rest := by
  obtain ⟨p, d, hp, hd, -, -, -, -, heq⟩ := MmalScale.Filter_isSome_elim h
  rw [heq]
  exact ⟨rfl, rfl, rfl, rfl⟩

/-- Witness for C10 at a concrete 640×480 → 1920×1080 call: the stored
output geometry becomes the 4:3 box 1440×1080. -/
theorem Filter_crop_mutates_state_witness :
    (MmalScale.Filter MmalScale.exFilter [] (some MmalScale.exPic)
      (some MmalScale.exPicDst)).state =
      { MmalScale.exFilter with fmt_out :=
          (MmalScale.video_format_ScaleCropAr MmalScale.exFilter.fmt_out
            MmalScale.exFilter.fmt_in) } ∧
    (MmalScale.Filter MmalScale.exFilter [] (some MmalScale.exPic)
      (some MmalScale.exPicDst)).state.fmt_in =
        MmalScale.exFilter.fmt_in ∧
    (MmalScale.Filter MmalScale.exFilter [] (some MmalScale.exPic)
      (some MmalScale.exPicDst)).state.pf_video_filter =
        MmalScale.exFilter.pf_video_filter ∧
    (MmalScale.Filter MmalScale.exFilter [] (some MmalScale.exPic)
      (some MmalScale.exPicDst)).state.rest = MmalScale.exFilter.rest :=
  Filter_crop_mutates_state MmalScale.exFilter [] (some MmalScale.exPic)
    (some MmalScale.exPicDst) (by decide)

/-- C3: every `Filter` call that returns an output frame makes equally many
resource-create and resource-delete calls, closes every display it opened,
and every resource and session created inside the call is destroyed or
closed in the same call's trace. -/
theorem Filter_resource_symmetry (f : MmalScale.FilterT) (buf : List Nat)
    (pic alloc : Option MmalScale.Picture)
    (h : (MmalScale.Filter f buf pic alloc).result.isSome) :
    (MmalScale.Filter f buf pic alloc).trace.countP
        MmalScale.Event.isCreate =
      (MmalScale.Filter f buf pic alloc).trace.countP
        MmalScale.Event.isDelete ∧
    (MmalScale.Filter f buf pic alloc).trace.countP
        MmalScale.Event.isDisplayOpen =
      (MmalScale.Filter f buf pic alloc).trace.countP
        MmalScale.Event.isDisplayClose ∧
    (∀ r t w hh, MmalScale.Event.resourceCreate r t w hh ∈
        (MmalScale.Filter f buf pic alloc).trace →
      MmalScale.Event.resourceDelete r ∈
        (MmalScale.Filter f buf pic alloc).trace) ∧
    (∀ r, MmalScale.Event.displayOpen r ∈
        (MmalScale.Filter f buf pic alloc).trace →
      MmalScale.Event.displayClose ∈
        (MmalScale.Filter f buf pic alloc).trace) ∧
    (MmalScale.Event.updateStart ∈
        (MmalScale.Filter f buf pic alloc).trace →
      MmalScale.Event.submitSync ∈
        (MmalScale.Filter f buf pic alloc).trace) := by
  obtain ⟨p, d, rfl, rfl, -, -, -, -, heq⟩ := MmalScale.Filter_isSome_elim h
  rw [heq]
  by_cases hc :
    ({ f with fmt_out :=
        MmalScale.video_format_ScaleCropAr f.fmt_out f.fmt_in } :
      MmalScale.FilterT).fmt_in.i_chroma = MmalScale.Chroma.YUVP
  · rw [MmalScale.scaleRun_trace_yuvp hc]
    refine ⟨rfl, rfl, ?_, ?_, by simp⟩
    · intro r t w hh hm
      simp at hm
      rcases hm with ⟨rfl, -⟩ | ⟨rfl, -⟩ <;> simp
    · intro r hm
      simp at hm
      simp
  · rw [MmalScale.scaleRun_trace_not_yuvp hc]
    refine ⟨rfl, rfl, ?_, ?_, by simp⟩
    · intro r t w hh hm
      simp at hm
      rcases hm with ⟨rfl, -⟩ | ⟨rfl, -⟩ <;> simp
    · intro r hm
      simp at hm
      simp

/-- Witness for C3 at a concrete successful RGBA call. -/
theorem Filter_resource_symmetry_witness :
    (MmalScale.Filter MmalScale.exFilter [] (some MmalScale.exPic)
        (some MmalScale.exPicDst)).trace.countP
        MmalScale.Event.isCreate =
      (MmalScale.Filter MmalScale.exFilter [] (some MmalScale.exPic)
        (some MmalScale.exPicDst)).trace.countP
        MmalScale.Event.isDelete ∧
    (MmalScale.Filter MmalScale.exFilter [] (some MmalScale.exPic)
        (some MmalScale.exPicDst)).trace.countP
        MmalScale.Event.isDisplayOpen =
      (MmalScale.Filter MmalScale.exFilter [] (some MmalScale.exPic)
        (some MmalScale.exPicDst)).trace.countP
        MmalScale.Event.isDisplayClose ∧
    (∀ r t w hh, MmalScale.Event.resourceCreate r t w hh ∈
        (MmalScale.Filter MmalScale.exFilter [] (some MmalScale.exPic)
          (some MmalScale.exPicDst)).trace →
      MmalScale.Event.resourceDelete r ∈
        (MmalScale.Filter MmalScale.exFilter [] (some MmalScale.exPic)
          (some MmalScale.exPicDst)).trace) ∧
    (∀ r, MmalScale.Event.displayOpen r ∈
        (MmalScale.Filter MmalScale.exFilter [] (some MmalScale.exPic)
          (some MmalScale.exPicDst)).trace →
      MmalScale.Event.displayClose ∈
        (MmalScale.Filter MmalScale.exFilter [] (some MmalScale.exPic)
          (some MmalScale.exPicDst)).trace) ∧
    (MmalScale.Event.updateStart ∈
        (MmalScale.Filter MmalScale.exFilter [] (some MmalScale.exPic)
          (some MmalScale.exPicDst)).trace →
      MmalScale.Event.submitSync ∈
        (MmalScale.Filter MmalScale.exFilter [] (some MmalScale.exPic)
          (some MmalScale.exPicDst)).trace) :=
  Filter_resource_symmetry MmalScale.exFilter [] (some MmalScale.exPic)
    (some MmalScale.exPicDst) (by decide)

/-- C7: in every `Filter` invocation that reaches teardown (returns a
frame), teardown runs in strict reverse-acquisition order: element-remove,
then display-close, then source-resource delete, then destination-resource
delete. -/
theorem Filter_teardown_order (f : MmalScale.FilterT) (buf : List Nat)
    (pic alloc : Option MmalScale.Picture)
    (h : (MmalScale.Filter f buf pic alloc).result.isSome) :
    MmalScale.posOf (MmalScale.Filter f buf pic alloc).trace
        MmalScale.Event.isElementRemove <
      MmalScale.posOf (MmalScale.Filter f buf pic alloc).trace
        MmalScale.Event.isDisplayClose ∧
    MmalScale.posOf (MmalScale.Filter f buf pic alloc).trace
        MmalScale.Event.isDisplayClose <
      MmalScale.posOf (MmalScale.Filter f buf pic alloc).trace
        (MmalScale.Event.isDeleteOf MmalScale.Res.src) ∧
    MmalScale.posOf (MmalScale.Filter f buf pic alloc).trace
        (MmalScale.Event.isDeleteOf MmalScale.Res.src) <
      MmalScale.posOf (MmalScale.Filter f buf pic alloc).trace
        (MmalScale.Event.isDeleteOf MmalScale.Res.dst) := by
  obtain ⟨p, d, rfl, rfl, -, -, -, -, heq⟩ := MmalScale.Filter_isSome_elim h
  rw [heq]
  by_cases hc :
    ({ f with fmt_out :=
        MmalScale.video_format_ScaleCropAr f.fmt_out f.fmt_in } :
      MmalScale.FilterT).fmt_in.i_chroma = MmalScale.Chroma.YUVP
  · rw [MmalScale.scaleRun_trace_yuvp hc]
    refine ⟨?_, ?_, ?_⟩ <;>
      simp [MmalScale.posOf, List.findIdx_cons, MmalScale.Event.isElementRemove,
        MmalScale.Event.isDisplayClose, MmalScale.Event.isDeleteOf]
  · rw [MmalScale.scaleRun_trace_not_yuvp hc]
    refine ⟨?_, ?_, ?_⟩ <;>
      simp [MmalScale.posOf, List.findIdx_cons, MmalScale.Event.isElementRemove,
        MmalScale.Event.isDisplayClose, MmalScale.Event.isDeleteOf]

/-- Witness for C7 at a concrete successful RGBA call. -/
theorem Filter_teardown_order_witness :
    MmalScale.posOf (MmalScale.Filter MmalScale.exFilter []
        (some MmalScale.exPic) (some MmalScale.exPicDst)).trace
        MmalScale.Event.isElementRemove <
      MmalScale.posOf (MmalScale.Filter MmalScale.exFilter []
        (some MmalScale.exPic) (some MmalScale.exPicDst)).trace
        MmalScale.Event.isDisplayClose ∧
    MmalScale.posOf (MmalScale.Filter MmalScale.exFilter []
        (some MmalScale.exPic) (some MmalScale.exPicDst)).trace
        MmalScale.Event.isDisplayClose <
      MmalScale.posOf (MmalScale.Filter MmalScale.exFilter []
        (some MmalScale.exPic) (some MmalScale.exPicDst)).trace
        (MmalScale.Event.isDeleteOf MmalScale.Res.src) ∧
    MmalScale.posOf (MmalScale.Filter MmalScale.exFilter []
        (some MmalScale.exPic) (some MmalScale.exPicDst)).trace
        (MmalScale.Event.isDeleteOf MmalScale.Res.src) <
      MmalScale.posOf (MmalScale.Filter MmalScale.exFilter []
        (some MmalScale.exPic) (some MmalScale.exPicDst)).trace
        (MmalScale.Event.isDeleteOf MmalScale.Res.dst) :=
  Filter_teardown_order MmalScale.exFilter [] (some MmalScale.exPic)
    (some MmalScale.exPicDst) (by decide)

/-- C8 counterexample: in a concrete successful Indexed8 run, the
composition session (`vc_dispmanx_update_start`) is opened BEFORE the pixel
upload and before the palette push, so the claimed
upload-happens-before-session-open ordering is false. -/
theorem Filter_upload_before_session_cex :
    (MmalScale.Filter MmalScale.exFilterP MmalScale.exBufA
      (some MmalScale.exPic) (some MmalScale.exPicDst)).result.isSome = true ∧
    ¬(MmalScale.posOf (MmalScale.Filter MmalScale.exFilterP MmalScale.exBufA
        (some MmalScale.exPic) (some MmalScale.exPicDst)).trace
          MmalScale.Event.isWriteData <
      MmalScale.posOf (MmalScale.Filter MmalScale.exFilterP MmalScale.exBufA
        (some MmalScale.exPic) (some MmalScale.exPicDst)).trace
          MmalScale.Event.isUpdateStart) ∧
    ¬(MmalScale.posOf (MmalScale.Filter MmalScale.exFilterP MmalScale.exBufA
        (some MmalScale.exPic) (some MmalScale.exPicDst)).trace
          MmalScale.Event.isSetPalette <
      MmalScale.posOf (MmalScale.Filter MmalScale.exFilterP MmalScale.exBufA
        (some MmalScale.exPic) (some MmalScale.exPicDst)).trace
          MmalScale.Event.isUpdateStart) := by
  rw [MmalScale.Filter_success_eq (by decide) (by decide),
    MmalScale.scaleRun_trace_yuvp rfl]
  refine ⟨rfl, ?_, ?_⟩ <;>
    simp [MmalScale.posOf, List.findIdx_cons, MmalScale.Event.isWriteData,
      MmalScale.Event.isSetPalette, MmalScale.Event.isUpdateStart,
      MmalScale.scaleRun]

/-- C8 amended: in every run that returns a frame, the session is opened
BEFORE the upload (not after it, as claimed); the upload — and, for
Indexed8, the palette push, which follows the upload — happens after the
session open and before the single element placement; the session contains
exactly one element placement, and it is submitted synchronously before
read-back. -/
theorem Filter_session_order_amended (f : MmalScale.FilterT)
    (buf : List Nat) (pic alloc : Option MmalScale.Picture)
    (h : (MmalScale.Filter f buf pic alloc).result.isSome) :
    MmalScale.posOf (MmalScale.Filter f buf pic alloc).trace
        MmalScale.Event.isUpdateStart <
      MmalScale.posOf (MmalScale.Filter f buf pic alloc).trace
        MmalScale.Event.isWriteData ∧
    MmalScale.posOf (MmalScale.Filter f buf pic alloc).trace
        MmalScale.Event.isWriteData <
      MmalScale.posOf (MmalScale.Filter f buf pic alloc).trace
        MmalScale.Event.isElementAdd ∧
    (f.fmt_in.i_chroma = MmalScale.Chroma.YUVP →
      MmalScale.posOf (MmalScale.Filter f buf pic alloc).trace
          MmalScale.Event.isWriteData <
        MmalScale.posOf (MmalScale.Filter f buf pic alloc).trace
          MmalScale.Event.isSetPalette ∧
      MmalScale.posOf (MmalScale.Filter f buf pic alloc).trace
          MmalScale.Event.isSetPalette <
        MmalScale.posOf (MmalScale.Filter f buf pic alloc).trace
          MmalScale.Event.isElementAdd) ∧
    (MmalScale.Filter f buf pic alloc).trace.countP
      MmalScale.Event.isElementAdd = 1 ∧
    MmalScale.posOf (MmalScale.Filter f buf pic alloc).trace
        MmalScale.Event.isElementAdd <
      MmalScale.posOf (MmalScale.Filter f buf pic alloc).trace
        MmalScale.Event.isSubmitSync ∧
    MmalScale.posOf (MmalScale.Filter f buf pic alloc).trace
        MmalScale.Event.isSubmitSync <
      MmalScale.posOf (MmalScale.Filter f buf pic alloc).trace
        MmalScale.Event.isReadData := by
  obtain ⟨p, d, rfl, rfl, -, -, -, -, heq⟩ := MmalScale.Filter_isSome_elim h
  rw [heq]
  by_cases hc :
    ({ f with fmt_out :=
        MmalScale.video_format_ScaleCropAr f.fmt_out f.fmt_in } :
      MmalScale.FilterT).fmt_in.i_chroma = MmalScale.Chroma.YUVP
  · rw [MmalScale.scaleRun_trace_yuvp hc]
    refine ⟨?_, ?_, fun h' => ⟨?_, ?_⟩, ?_, ?_, ?_⟩ <;>
      simp [MmalScale.posOf, List.findIdx_cons, List.countP_cons,
        MmalScale.Event.isUpdateStart, MmalScale.Event.isWriteData,
        MmalScale.Event.isSetPalette, MmalScale.Event.isElementAdd,
        MmalScale.Event.isSubmitSync, MmalScale.Event.isReadData]
  · rw [MmalScale.scaleRun_trace_not_yuvp hc]
    refine ⟨?_, ?_, fun h' => absurd h' hc, ?_, ?_, ?_⟩ <;>
      simp [MmalScale.posOf, List.findIdx_cons, List.countP_cons,
        MmalScale.Event.isUpdateStart, MmalScale.Event.isWriteData,
        MmalScale.Event.isSetPalette, MmalScale.Event.isElementAdd,
        MmalScale.Event.isSubmitSync, MmalScale.Event.isReadData]

/-- Witness for the amended C8 at a concrete successful Indexed8 call. -/
theorem Filter_session_order_amended_witness :
    MmalScale.posOf (MmalScale.Filter MmalScale.exFilterP MmalScale.exBufA
        (some MmalScale.exPic) (some MmalScale.exPicDst)).trace
        MmalScale.Event.isUpdateStart <
      MmalScale.posOf (MmalScale.Filter MmalScale.exFilterP MmalScale.exBufA
        (some MmalScale.exPic) (some MmalScale.exPicDst)).trace
        MmalScale.Event.isWriteData ∧
    MmalScale.posOf (MmalScale.Filter MmalScale.exFilterP MmalScale.exBufA
        (some MmalScale.exPic) (some MmalScale.exPicDst)).trace
        MmalScale.Event.isWriteData <
      MmalScale.posOf (MmalScale.Filter MmalScale.exFilterP MmalScale.exBufA
        (some MmalScale.exPic) (some MmalScale.exPicDst)).trace
        MmalScale.Event.isElementAdd ∧
    (MmalScale.exFilterP.fmt_in.i_chroma = MmalScale.Chroma.YUVP →
      MmalScale.posOf (MmalScale.Filter MmalScale.exFilterP MmalScale.exBufA
          (some MmalScale.exPic) (some MmalScale.exPicDst)).trace
          MmalScale.Event.isWriteData <
        MmalScale.posOf (MmalScale.Filter MmalScale.exFilterP MmalScale.exBufA
          (some MmalScale.exPic) (some MmalScale.exPicDst)).trace
          MmalScale.Event.isSetPalette ∧
      MmalScale.posOf (MmalScale.Filter MmalScale.exFilterP MmalScale.exBufA
          (some MmalScale.exPic) (some MmalScale.exPicDst)).trace
          MmalScale.Event.isSetPalette <
        MmalScale.posOf (MmalScale.Filter MmalScale.exFilterP MmalScale.exBufA
          (some MmalScale.exPic) (some MmalScale.exPicDst)).trace
          MmalScale.Event.isElementAdd) ∧
    (MmalScale.Filter MmalScale.exFilterP MmalScale.exBufA
      (some MmalScale.exPic) (some MmalScale.exPicDst)).trace.countP
      MmalScale.Event.isElementAdd = 1 ∧
    MmalScale.posOf (MmalScale.Filter MmalScale.exFilterP MmalScale.exBufA
        (some MmalScale.exPic) (some MmalScale.exPicDst)).trace
        MmalScale.Event.isElementAdd <
      MmalScale.posOf (MmalScale.Filter MmalScale.exFilterP MmalScale.exBufA
        (some MmalScale.exPic) (some MmalScale.exPicDst)).trace
        MmalScale.Event.isSubmitSync ∧
    MmalScale.posOf (MmalScale.Filter MmalScale.exFilterP MmalScale.exBufA
        (some MmalScale.exPic) (some MmalScale.exPicDst)).trace
        MmalScale.Event.isSubmitSync <
      MmalScale.posOf (MmalScale.Filter MmalScale.exFilterP MmalScale.exBufA
        (some MmalScale.exPic) (some MmalScale.exPicDst)).trace
        MmalScale.Event.isReadData :=
  Filter_session_order_amended MmalScale.exFilterP MmalScale.exBufA
    (some MmalScale.exPic) (some MmalScale.exPicDst) (by decide)

namespace MmalScale

/-- The conversion loop never changes the palette buffer's length. -/
theorem fillPalette_length (es : List (Nat × Nat × Nat × Nat)) :
    ∀ (buf : List Nat) (k : Nat),
      (fillPalette buf es k).length = buf.length := by
  induction es with
  | nil =>
    intro buf k
    rfl
  | cons e rest ih =>
    intro buf k
    rw [fillPalette, ih]
    exact List.length_set buf k _

/-- Buffer slots at or past the written range keep their previous
contents. -/
theorem fillPalette_getElem_past (es : List (Nat × Nat × Nat × Nat)) :
    ∀ (buf : List Nat) (k i : Nat), k + es.length ≤ i →
      (fillPalette buf es k)[i]? = buf[i]? := by
  induction es with
  | nil =>
    intro buf k i h
    rfl
  | cons e rest ih =>
    intro buf k i h
    simp only [List.length_cons] at h
    rw [fillPalette, ih _ (k + 1) i (by omega)]
    exact List.getElem?_set_ne (by omega)

/-- Full trace of a successful paletted call, phrased on the original filter
state. -/
theorem Filter_trace_yuvp {f : FilterT} {buf : List Nat} {p d : Picture}
    (hc : f.fmt_in.i_chroma = Chroma.YUVP)
    (h1 : ¬(f.fmt_in.i_height = 0 ∨ f.fmt_in.i_width = 0))
    (h2 : ¬(f.fmt_out.i_height = 0 ∨ f.fmt_out.i_width = 0)) :
    (Filter f buf (some p) (some d)).trace =
      [Event.resourceCreate Res.dst ImageType.RGBA32
         (video_format_ScaleCropAr f.fmt_out f.fmt_in).i_width
         (video_format_ScaleCropAr f.fmt_out f.fmt_in).i_height,
       Event.displayOpen Res.dst,
       Event.updateStart,
       Event.resourceCreate Res.src ImageType.I8BPP
         (f.fmt_in.i_width ||| (p.pitch <<< 16))
         (f.fmt_in.i_height ||| (f.fmt_in.i_height <<< 16)),
       Event.writeData ImageType.I8BPP p.pitch,
       Event.setPalette (fillPalette buf f.fmt_in.p_palette.entries 0),
       Event.elementAdd,
       Event.submitSync,
       Event.readData d.pitch,
       Event.elementRemove,
       Event.displayClose,
       Event.resourceDelete Res.src,
       Event.resourceDelete Res.dst,
       Event.releaseInput] := by
  rw [Filter_success_eq h1 h2,
    scaleRun_trace_yuvp
      (f := { f with fmt_out := video_format_ScaleCropAr f.fmt_out f.fmt_in })
      hc]

end MmalScale

/-- C9: the palette push reads the module-level 256-slot buffer shared
across calls: every Indexed8 call that returns a frame pushes a full
256-entry palette regardless of the current palette's entry count, the
pushed slots at or past the entry count are the buffer's previous (prior
history) contents, and two runs with identical current inputs but different
prior histories push different palettes. -/
theorem Filter_palette_shared_buffer :
    (∀ (f : MmalScale.FilterT) (buf : List Nat) (p d : MmalScale.Picture),
      f.fmt_in.i_chroma = MmalScale.Chroma.YUVP →
      buf.length = 256 →
      (MmalScale.Filter f buf (some p) (some d)).result.isSome →
      ∃ data,
        MmalScale.Event.setPalette data ∈
          (MmalScale.Filter f buf (some p) (some d)).trace ∧
        data.length = 256 ∧
        ∀ i, f.fmt_in.p_palette.entries.length ≤ i →
          data[i]? = buf[i]?) ∧
    (∃ data1 data2,
      MmalScale.Event.setPalette data1 ∈
        (MmalScale.Filter MmalScale.exFilterP MmalScale.exBufA
          (some MmalScale.exPic) (some MmalScale.exPicDst)).trace ∧
      MmalScale.Event.setPalette data2 ∈
        (MmalScale.Filter MmalScale.exFilterP MmalScale.exBufB
          (some MmalScale.exPic) (some MmalScale.exPicDst)).trace ∧
      data1 ≠ data2) := by
  constructor
  · intro f buf p d hc hlen h
    obtain ⟨p', d', hp, hd, hih, hiw, hoh, how, -⟩ :=
      MmalScale.Filter_isSome_elim h
    cases hp
    cases hd
    rw [MmalScale.Filter_trace_yuvp hc (by tauto) (by tauto)]
    refine ⟨MmalScale.fillPalette buf f.fmt_in.p_palette.entries 0,
      by simp, ?_, ?_⟩
    · rw [MmalScale.fillPalette_length]
      exact hlen
    · intro i hi
      exact MmalScale.fillPalette_getElem_past _ _ _ _ (by omega)
  · refine ⟨MmalScale.fillPalette MmalScale.exBufA
      MmalScale.exFilterP.fmt_in.p_palette.entries 0,
      MmalScale.fillPalette MmalScale.exBufB
        MmalScale.exFilterP.fmt_in.p_palette.entries 0, ?_, ?_, ?_⟩
    · rw [MmalScale.Filter_trace_yuvp rfl (by decide) (by decide)]
      simp only [List.mem_cons]
      exact Or.inr (Or.inr (Or.inr (Or.inr (Or.inr (Or.inl trivial)))))
    · rw [MmalScale.Filter_trace_yuvp rfl (by decide) (by decide)]
      simp only [List.mem_cons]
      exact Or.inr (Or.inr (Or.inr (Or.inr (Or.inr (Or.inl trivial)))))
    · have h9a : (MmalScale.fillPalette MmalScale.exBufA
          MmalScale.exFilterP.fmt_in.p_palette.entries 0)[9]? = some 0 := by
        rw [show MmalScale.exFilterP.fmt_in.p_palette.entries =
          [(235, 128, 128, 255)] from rfl]
        rw [MmalScale.fillPalette, MmalScale.fillPalette,
          List.getElem?_set_ne (by omega), MmalScale.exBufA,
          List.getElem?_replicate]
        norm_num
      have h9b : (MmalScale.fillPalette MmalScale.exBufB
          MmalScale.exFilterP.fmt_in.p_palette.entries 0)[9]? = some 1 := by
        rw [show MmalScale.exFilterP.fmt_in.p_palette.entries =
          [(235, 128, 128, 255)] from rfl]
        rw [MmalScale.fillPalette, MmalScale.fillPalette,
          List.getElem?_set_ne (by omega), MmalScale.exBufB,
          List.getElem?_set_self (by rw [List.length_replicate]; omega)]
      intro he
      rw [he, h9b] at h9a
      cases h9a

/-- Witness for the universally quantified part of C9 at a concrete
Indexed8 call with the all-zero prior history. -/
theorem Filter_palette_shared_buffer_witness :
    ∃ data,
      MmalScale.Event.setPalette data ∈
        (MmalScale.Filter MmalScale.exFilterP MmalScale.exBufA
          (some MmalScale.exPic) (some MmalScale.exPicDst)).trace ∧
      data.length = 256 ∧
      ∀ i, MmalScale.exFilterP.fmt_in.p_palette.entries.length ≤ i →
        data[i]? = MmalScale.exBufA[i]? :=
  Filter_palette_shared_buffer.1 MmalScale.exFilterP MmalScale.exBufA
    MmalScale.exPic MmalScale.exPicDst rfl
    (by rw [MmalScale.exBufA, List.length_replicate]) (by decide)
